import Mathlib

/-!
Verification development for the KLN freight-invoice extractor (`src/app.py`).

The Python module extracts fields from invoice PDF text with regular
expressions and assembles a 13-key record per document.  This file embeds
the extraction pipeline shallowly in Lean:

* document text is `String` (a list of characters); page extraction and
  the PDF library are external collaborators, modelled as an
  `Option (List (Option String))` input (`none` = the open/extract step
  raised an exception, `some pages` = the per-page texts, where a page's
  `none` stands for `extract_text()` returning `None`);
* every regex of the source is hand-compiled to a deterministic matcher
  over `List Char`.  Each matcher's doc comment quotes the pattern and
  justifies the determinization (the patterns are simple enough that the
  backtracking of a real regex engine never changes the result; the
  arguments are spelled out per matcher);
* Python floats are modelled as exact rationals (`ℚ`); `float(...)` on a
  captured string is `pyFloat`, returning `none` where Python raises
  `ValueError`;
* a produced record is the assoc list of the 13 dict entries, in the
  order the source writes them.

Character classes are ASCII, as in the invoice texts the rule set
targets; Python's `\s`, `\d`, `\w` additionally match some non-ASCII
code points, which no claim here depends on.
-/

/-- `\s` of Python `re` (ASCII part): space, tab, newline, vertical tab,
form feed, carriage return (code points 32 and 9–13). -/
def isSpaceChar (c : Char) : Bool :=
  decide (c.toNat = 32 ∨ (9 ≤ c.toNat ∧ c.toNat ≤ 13))

/-- `\d` of Python `re` (ASCII): `0`–`9`. -/
def isDigitChar (c : Char) : Bool :=
  decide (48 ≤ c.toNat ∧ c.toNat ≤ 57)

/-- `A`–`Z`. -/
def isUpperAZ (c : Char) : Bool :=
  decide (65 ≤ c.toNat ∧ c.toNat ≤ 90)

/-- `a`–`z`. -/
def isLowerAZ (c : Char) : Bool :=
  decide (97 ≤ c.toNat ∧ c.toNat ≤ 122)

/-- `\w` of Python `re` (ASCII): letters, digits, underscore. -/
def isWordChar (c : Char) : Bool :=
  isDigitChar c || isUpperAZ c || isLowerAZ c || c == '_'

/-- ASCII upper-casing of one character, as `str.upper()` does on ASCII. -/
def pyUpperChar (c : Char) : Char :=
  if isLowerAZ c then Char.ofNat (c.toNat - 32) else c

/-- `str.upper()` (ASCII). -/
def pyUpper (s : String) : String :=
  String.mk (s.data.map pyUpperChar)

/-- Case-insensitive character comparison, the `re.I` matching rule for
ASCII: pattern character `p` matches text character `c` iff they agree up
to case. -/
def ciEq (p c : Char) : Bool :=
  pyUpperChar p == pyUpperChar c

/-- Match the literal pattern `p` case-insensitively at the head of the
text; return the rest of the text on success. -/
def matchLit : List Char → List Char → Option (List Char)
  | [], cs => some cs
  | _ :: _, [] => none
  | p :: ps, c :: cs => if ciEq p c then matchLit ps cs else none

/-- Exact (case-sensitive) prefix test, for Python's `in` on strings. -/
def startsWithLit : List Char → List Char → Bool
  | [], _ => true
  | _ :: _, [] => false
  | p :: ps, c :: cs => p == c && startsWithLit ps cs

/-- Python's `needle in hay` substring test. -/
def hasSub (needle : List Char) : List Char → Bool
  | [] => startsWithLit needle []
  | c :: rest => startsWithLit needle (c :: rest) || hasSub needle rest

/-- `re.search`: try the matcher at each start position, left to right
(Python returns the leftmost match; all matchers below fail on the empty
suffix, matching the fact that none of the source's patterns is
nullable). -/
def searchLeftmost (f : List Char → Option String) : List Char → Option String
  | [] => f []
  | c :: rest =>
    match f (c :: rest) with
    | some r => some r
    | none => searchLeftmost f rest

/-- Python `str.strip()` (ASCII whitespace). -/
def pyStrip (s : String) : String :=
  String.mk (((s.data.dropWhile isSpaceChar).reverse.dropWhile isSpaceChar).reverse)

/-- `s.replace(",", "")`, the thousands-separator stripping of the
source's `float(m.group(1).replace(",", ""))` calls. -/
def stripCommas (s : String) : String :=
  String.mk (s.data.filter (fun c => c ≠ ','))

/-- Numeric value of a digit string (the way `int`/`float` read an
unbroken digit run). -/
def digitsToNat (cs : List Char) : Nat :=
  cs.foldl (fun a c => a * 10 + (c.toNat - 48)) 0

/-- Python `float(s)` restricted to the strings the parser ever passes it:
captures of `[\d.]+` or comma-stripped captures of `[\d,]+\.\d{2}`, i.e.
strings over digits and dots.  Such a string is a valid float literal iff
it has at least one digit and at most one dot; otherwise `float` raises
`ValueError`, modelled as `none`.  The value is exact (`ℚ`). -/
def pyFloat (s : String) : Option ℚ :=
  let cs := s.data
  if cs ≠ [] ∧ cs.all (fun c => isDigitChar c || c == '.') = true ∧
      cs.count '.' ≤ 1 ∧ cs.any isDigitChar = true then
    let ip := cs.takeWhile (fun c => c ≠ '.')
    let fp := (cs.dropWhile (fun c => c ≠ '.')).drop 1
    some ((digitsToNat ip : ℚ) + (digitsToNat fp : ℚ) / (10 : ℚ) ^ fp.length)
  else none

/-! ### The regex patterns of `src/app.py`, compiled to matchers

Each `...At` function matches its pattern anchored at the head of the
text, exactly as the regex engine would try it at one start position;
`searchLeftmost` then supplies `re.search`'s leftmost-match semantics. -/

/-- Character class `[\s:\-A-Z\n]` of `INVOICE_DATE_PAT` under `re.I`
(so letters of either case; `\n` is already in `\s`). -/
def dateClassChar (c : Char) : Bool :=
  isSpaceChar c || c == ':' || c == '-' || isUpperAZ c || isLowerAZ c

/-- `\d{4}-\d{2}-\d{2}` tried at the head of the text: the next ten
characters must be digits and hyphens in date shape; what follows is
unconstrained. -/
def dateAt (cs : List Char) : Option String :=
  match cs with
  | y1 :: y2 :: y3 :: y4 :: h1 :: m1 :: m2 :: h2 :: d1 :: d2 :: _ =>
    if isDigitChar y1 && isDigitChar y2 && isDigitChar y3 && isDigitChar y4 &&
        (h1 == '-') && isDigitChar m1 && isDigitChar m2 && (h2 == '-') &&
        isDigitChar d1 && isDigitChar d2 then
      some (String.mk [y1, y2, y3, y4, h1, m1, m2, h2, d1, d2])
    else none
  | _ => none

/-- The lazy run `[\s:\-A-Z\n]*?` followed by the date group: try the
date at the current position first (lazy = shortest run), else consume
one class character and repeat; a character outside the class ends the
attempt.  This is exactly the backtracking order of `*?`. -/
def invoiceDateLazy : List Char → Option String
  | [] => none
  | c :: rest =>
    match dateAt (c :: rest) with
    | some d => some d
    | none => if dateClassChar c then invoiceDateLazy rest else none

/-- `INVOICE_DATE_PAT = r"INVOICE DATE[\s:\-A-Z\n]*?(\d{4}-\d{2}-\d{2})"`,
`re.I`, tried at one start position. -/
def invoiceDateAt (cs : List Char) : Option String :=
  match matchLit ("INVOICE DATE".data) cs with
  | some r => invoiceDateLazy r
  | none => none

/-- `INVOICE_DATE_PAT.search(text)`, returning group 1. -/
def INVOICE_DATE_search (text : String) : Option String :=
  searchLeftmost invoiceDateAt text.data

/-- Capture class `[\w\s\-\.,/&]` of `SHIPPER_PAT`. -/
def shipperClassChar (c : Char) : Bool :=
  isWordChar c || isSpaceChar c || c == '-' || c == '.' || c == ',' ||
    c == '/' || c == '&'

/-- The apostrophe character (used in the shipper label literals). -/
def apos : Char := Char.ofNat 39

/-- `SHIPPER_PAT = r"SHIPPER'S NAME\s*-\s*NOM DE L'EXP[ÉE]DITEUR\s*([\w\s\-\.,/&]+)"`,
`re.I`, tried at one start position.  Determinization: each greedy `\s*`
is a maximal run — before `-` and before `NOM`, giving back a whitespace
character can never help since whitespace matches neither `-` nor `N`.
The final `\s*` is followed by the greedy capture class, which contains
`\s`: the regex tries the longest `\s*` first, so the capture starts at
the first non-whitespace position if a class character stands there;
otherwise the engine gives back exactly one whitespace character to the
capture (a run of one, since the next character is outside the class),
and fails only if there was no whitespace at all. -/
def shipperAt (cs : List Char) : Option String :=
  match matchLit (("SHIPPER".data ++ [apos] ++ "S NAME".data)) cs with
  | none => none
  | some r1 =>
    match r1.dropWhile isSpaceChar with
    | '-' :: r3 =>
      match matchLit (("NOM DE L".data ++ [apos] ++ "EXP".data)) (r3.dropWhile isSpaceChar) with
      | none => none
      | some r5 =>
        match r5 with
        | e :: r6 =>
          if e == Char.ofNat 201 || e == Char.ofNat 233 || e == 'E' || e == 'e' then
            match matchLit ("DITEUR".data) r6 with
            | none => none
            | some r7 =>
              let ws := r7.takeWhile isSpaceChar
              let r8 := r7.dropWhile isSpaceChar
              let cap := r8.takeWhile shipperClassChar
              if cap.isEmpty then
                match ws.getLast? with
                | some w => some (String.mk [w])
                | none => none
              else some (String.mk cap)
          else none
        | [] => none
    | _ => none

/-- `SHIPPER_PAT.search(text)`, returning group 1. -/
def SHIPPER_search (text : String) : Option String :=
  searchLeftmost shipperAt text.data

/-- `PACKAGES_PAT = r"(\d+)\s+PACKAGE\b"`, `re.I`, tried at one start
position.  Determinization: `\d+` and `\s+` are maximal runs (their
classes are disjoint from each other and from `P`), and `\b` holds iff
the character after `PACKAGE` is absent or not a word character. -/
def packagesAt (cs : List Char) : Option String :=
  let ds := cs.takeWhile isDigitChar
  let r1 := cs.dropWhile isDigitChar
  if ds.isEmpty then none else
  let ws := r1.takeWhile isSpaceChar
  let r2 := r1.dropWhile isSpaceChar
  if ws.isEmpty then none else
  match matchLit ("PACKAGE".data) r2 with
  | some r3 =>
    match r3 with
    | [] => some (String.mk ds)
    | c :: _ => if isWordChar c then none else some (String.mk ds)
  | none => none

/-- `PACKAGES_PAT.search(text)`, returning group 1. -/
def PACKAGES_search (text : String) : Option String :=
  searchLeftmost packagesAt text.data

/-- The common shape of `WEIGHT_PAT`/`VOL_PAT`:
`<label>[:\s]+([\d.]+)\s*KG`, `re.I`, tried at one start position.
Determinization: `[:\s]+` and `[\d.]+` are maximal runs (disjoint
classes; shortening either leaves a character of its own class where the
next piece needs a character of a disjoint class, so backtracking cannot
succeed), and shortening the capture before `\s*KG` leaves a digit or
dot where `K` is required. -/
def weightAt (label : List Char) (cs : List Char) : Option String :=
  match matchLit label cs with
  | none => none
  | some r1 =>
    let ws := r1.takeWhile (fun c => c == ':' || isSpaceChar c)
    let r2 := r1.dropWhile (fun c => c == ':' || isSpaceChar c)
    if ws.isEmpty then none else
    let num := r2.takeWhile (fun c => isDigitChar c || c == '.')
    let r3 := r2.dropWhile (fun c => isDigitChar c || c == '.')
    if num.isEmpty then none else
    match matchLit ("KG".data) (r3.dropWhile isSpaceChar) with
    | some _ => some (String.mk num)
    | none => none

/-- `WEIGHT_PAT = r"Gross Weight[:\s]+([\d.]+)\s*KG"`, searched. -/
def WEIGHT_search (text : String) : Option String :=
  searchLeftmost (weightAt ("Gross Weight".data)) text.data

/-- `VOL_PAT = r"Volume Weight[:\s]+([\d.]+)\s*KG"`, searched. -/
def VOL_search (text : String) : Option String :=
  searchLeftmost (weightAt ("Volume Weight".data)) text.data

/-- The group `([\d,]+\.\d{2})` tried at the head of the text, with the
rest of the pattern (`\s*(USD|CAD|EUR)?`, all optional) never able to
fail.  Determinization: `[\d,]+` is a maximal run — shortening it leaves
a digit or comma where the mandatory `\.` is required. -/
def decimal2At (cs : List Char) : Option String :=
  let ds := cs.takeWhile (fun c => isDigitChar c || c == ',')
  let r1 := cs.dropWhile (fun c => isDigitChar c || c == ',')
  if ds.isEmpty then none else
  match r1 with
  | '.' :: a :: b :: _ =>
    if isDigitChar a && isDigitChar b then
      some (String.mk (ds ++ '.' :: a :: b :: []))
    else none
  | _ => none

/-- `SUBTOTAL_PAT = r"Total\s*[:\-]?\s*([\d,]+\.\d{2})\s*(USD|CAD|EUR)?"`,
`re.I`, tried at one start position (only group 1 is used by the
source).  Determinization: the `\s*` runs are maximal and the optional
`[:\-]` is taken iff present — whitespace matches neither `:`/`-` nor a
digit, and `:`/`-` matches no digit, so no backtracking order can
succeed where this deterministic reading fails. -/
def subtotalAt (cs : List Char) : Option String :=
  match matchLit ("Total".data) cs with
  | none => none
  | some r1 =>
    let r2 := r1.dropWhile isSpaceChar
    let r3 := match r2 with
      | c :: rest => if c == ':' || c == '-' then rest else r2
      | [] => r2
    decimal2At (r3.dropWhile isSpaceChar)

/-- `SUBTOTAL_PAT.search(text)`, returning group 1. -/
def SUBTOTAL_search (text : String) : Option String :=
  searchLeftmost subtotalAt text.data

/-- `([\d,]+\.\d{2})\s*$` (with `re.M`) tried at the head of the text:
the two-fraction-digit decimal whose trailing `\s*$` succeeds iff every
character between the decimal and the next newline (or the end of the
text) is whitespace — `\s*` may consume whitespace and `$` matches at
the end of the string or just before a `\n`.  `[\d,]+` is a maximal run
as in `decimal2At`. -/
def decimal2EoL (cs : List Char) : Option String :=
  let ds := cs.takeWhile (fun c => isDigitChar c || c == ',')
  let r1 := cs.dropWhile (fun c => isDigitChar c || c == ',')
  if ds.isEmpty then none else
  match r1 with
  | '.' :: a :: b :: r2 =>
    if isDigitChar a && isDigitChar b &&
        (r2.takeWhile (fun c => c ≠ '\n')).all isSpaceChar then
      some (String.mk (ds ++ '.' :: a :: b :: []))
    else none
  | _ => none

/-- The lazy `[^\n]*?` of `FREIGHT_AMOUNT_PAT` followed by the anchored
decimal: try the decimal at the current position first, else consume one
non-newline character and repeat (the run cannot cross the end of the
label's line). -/
def freightAfterLabel : List Char → Option String
  | [] => none
  | c :: rest =>
    match decimal2EoL (c :: rest) with
    | some d => some d
    | none => if c == '\n' then none else freightAfterLabel rest

/-- `FREIGHT_AMOUNT_PAT = r"AIR FREIGHT[^\n]*?([\d,]+\.\d{2})\s*$"`,
`re.I | re.M`, tried at one start position. -/
def freightAt (cs : List Char) : Option String :=
  match matchLit ("AIR FREIGHT".data) cs with
  | some r => freightAfterLabel r
  | none => none

/-- `FREIGHT_AMOUNT_PAT.search(text)`, returning group 1. -/
def FREIGHT_search (text : String) : Option String :=
  searchLeftmost freightAt text.data

/-- The pattern `(\d{4,6}[A-Z]?)` of `extract_invoice_id`, tried at one
start position of the (already upper-cased) name: a maximal digit run of
length at least 4 is cut to at most 6 digits (greedy `{4,6}`), then a
single letter is taken if present (greedy `[A-Z]?`; nothing after it can
fail, so no backtracking). -/
def invoiceIdAt (cs : List Char) : Option String :=
  let ds := cs.takeWhile isDigitChar
  if ds.length < 4 then none else
  let d := ds.take 6
  match cs.drop d.length with
  | c :: _ => if isUpperAZ c then some (String.mk (d ++ [c])) else some (String.mk d)
  | [] => some (String.mk d)

/-- `extract_invoice_id` (src/app.py:19-24): search the upper-cased
filename for `(\d{4,6}[A-Z]?)`; fall back to the filename itself. -/
def extract_invoice_id (filename : String) : String :=
  match searchLeftmost invoiceIdAt (pyUpper filename).data with
  | some s => s
  | none => filename

/-- `extract_currency_from_filename` (src/app.py:30-38): substring tests
`" CAD" in name`, `" USD" in name`, `" EUR" in name` on the upper-cased
filename, in that order. -/
def extract_currency_from_filename (filename : String) : Option String :=
  let name := (pyUpper filename).data
  if hasSub (" CAD".data) name then some "CAD"
  else if hasSub (" USD".data) name then some "USD"
  else if hasSub (" EUR".data) name then some "EUR"
  else none

/-! ### The parser -/

/-- A Python dict value as the record stores them: `None`, a `str`, a
`float` (exact here), or an `int`. -/
inductive PyVal where
  | vNone : PyVal
  | vStr : String → PyVal
  | vFloat : ℚ → PyVal
  | vInt : Int → PyVal
deriving DecidableEq

def optStr : Option String → PyVal
  | some s => PyVal.vStr s
  | none => PyVal.vNone

def optFloat : Option ℚ → PyVal
  | some q => PyVal.vFloat q
  | none => PyVal.vNone

def optInt : Option Int → PyVal
  | some n => PyVal.vInt n
  | none => PyVal.vNone

/-- A produced record: the assoc list of the dict built at
src/app.py:153-168, keys in source order. -/
abbrev Row := List (String × PyVal)

/-- `HEADERS` (src/app.py:44-48). -/
def HEADERS : List String :=
  ["Timestamp", "Filename", "Invoice_Date", "Currency", "Shipper",
   "Weight_KG", "Volume_M3", "Chargeable_KG", "Chargeable_CBM",
   "Pieces", "Subtotal", "Freight_Mode", "Freight_Rate"]

/-- `"\n".join(p.extract_text() or "" for p in pdf.pages)`
(src/app.py:93): absent page text becomes the empty string, pages are
joined with newlines. -/
def joinPages : List String → List Char
  | [] => []
  | [s] => s.data
  | s :: rest => s.data ++ '\n' :: joinPages rest

def pdfText (pages : List (Option String)) : String :=
  String.mk (joinPages (pages.map (fun p => p.getD "")))

/-- The intermediate values of `parse_invoice_pdf_bytes` before the dict
is built (src/app.py:95-150). -/
structure Extracted where
  inv_date : Option String
  currency : Option String
  shipper : Option String
  pieces : Option Int
  weight : Option ℚ
  volume_m3 : Option ℚ
  chargeable_kg : Option ℚ
  chargeable_cbm : Option ℚ
  f_mode : Option String
  f_rate : Option ℚ
  subtotal : Option ℚ

/-- Coercion of an optional raw capture by `float`: no match is a normal
absence (`some none`), a match that `float` rejects is an exception
(`none`), aborting the document (the `except` at src/app.py:170-172). -/
def coerceFloatOpt : Option String → Option (Option ℚ)
  | none => some none
  | some s => (pyFloat s).map some

/-- The field extraction and derivation of `parse_invoice_pdf_bytes`
(src/app.py:95-150) on the normalized document text.  The four `float`
coercions are the only statements of the body that can raise; any one
raising aborts the whole document, so the order in which the `none`s are
tested is immaterial.  `if weight and volume_m3:` (src/app.py:131) is
Python truthiness: `None` and `0.0` are both falsy. -/
def extractFields (text : String) (filename : String) : Option Extracted :=
  match coerceFloatOpt (WEIGHT_search text),
        coerceFloatOpt (VOL_search text),
        coerceFloatOpt ((FREIGHT_search text).map stripCommas),
        coerceFloatOpt ((SUBTOTAL_search text).map stripCommas) with
  | some weight, some vol_kg, some f_rate, some subtotal =>
    let volume_m3 := vol_kg.map (fun v => v / 167)
    some {
      inv_date := (INVOICE_DATE_search text).map pyStrip
      currency := extract_currency_from_filename filename
      shipper := (SHIPPER_search text).map pyStrip
      pieces := (PACKAGES_search text).map (fun s => (digitsToNat s.data : Int))
      weight := weight
      volume_m3 := volume_m3
      chargeable_kg :=
        match weight, volume_m3 with
        | some w, some v => if w = 0 ∨ v = 0 then none else some (max w (v * 167))
        | _, _ => none
      chargeable_cbm := volume_m3
      f_mode := (FREIGHT_search text).map (fun _ => "Air")
      f_rate := f_rate
      subtotal := subtotal }
  | _, _, _, _ => none

/-- The dict literal of src/app.py:153-168.  `now` is the
`datetime.now().strftime(...)` timestamp, supplied by the caller's
clock. -/
def buildRow (now filename : String) (e : Extracted) : Row :=
  [("Timestamp", PyVal.vStr now),
   ("Filename", PyVal.vStr (extract_invoice_id filename)),
   ("Invoice_Date", optStr e.inv_date),
   ("Currency", optStr e.currency),
   ("Shipper", optStr e.shipper),
   ("Weight_KG", optFloat e.weight),
   ("Volume_M3", optFloat e.volume_m3),
   ("Chargeable_KG", optFloat e.chargeable_kg),
   ("Chargeable_CBM", optFloat e.chargeable_cbm),
   ("Pieces", optInt e.pieces),
   ("Subtotal", optFloat e.subtotal),
   ("Freight_Mode", optStr e.f_mode),
   ("Freight_Rate", optFloat e.f_rate)]

/-- `parse_invoice_pdf_bytes` (src/app.py:89-172).  `doc = none` models
the PDF open / page-text extraction raising; every exception path of the
body returns `None`. -/
def parse_invoice_pdf_bytes (now : String) (doc : Option (List (Option String)))
    (filename : String) : Option Row :=
  match doc with
  | none => none
  | some pages => (extractFields (pdfText pages) filename).map (buildRow now filename)

/-- The extraction loop of the UI (src/app.py:202-213): each upload
contributes its record to `rows` on success, or its name to the warned
failures on `None`; the loop always continues with the remaining
uploads. -/
def extractBatch (now : String) :
    List (Option (List (Option String)) × String) → List Row × List String
  | [] => ([], [])
  | u :: rest =>
    let r := extractBatch now rest
    match parse_invoice_pdf_bytes now u.1 u.2 with
    | some row => (row :: r.1, r.2)
    | none => (r.1, u.2 :: r.2)

/-- Modelled from the spec's words only (for comparison against the
source's currency rule): "scans the identifier/filename for
space-delimited CAD/USD/EUR tokens" — the space-separated tokens of a
character list. -/
def splitSp : List Char → List (List Char)
  | [] => [[]]
  | c :: rest =>
    if c = ' ' then [] :: splitSp rest
    else match splitSp rest with
      | t :: ts => (c :: t) :: ts
      | [] => [[c]]

/-! ### Helper lemmas -/

theorem parse_some_inv {now fn : String} {pages : List (Option String)} {row : Row}
    (h : parse_invoice_pdf_bytes now (some pages) fn = some row) :
    ∃ e, extractFields (pdfText pages) fn = some e ∧ row = buildRow now fn e := by
  simp only [parse_invoice_pdf_bytes] at h
  cases he : extractFields (pdfText pages) fn with
  | none => rw [he] at h; simp at h
  | some e => rw [he] at h; simp at h; exact ⟨e, rfl, h.symm⟩

theorem extractFields_some_inv {text fn : String} {e : Extracted}
    (h : extractFields text fn = some e) :
    ∃ w v f s,
      coerceFloatOpt (WEIGHT_search text) = some w ∧
      coerceFloatOpt (VOL_search text) = some v ∧
      coerceFloatOpt ((FREIGHT_search text).map stripCommas) = some f ∧
      coerceFloatOpt ((SUBTOTAL_search text).map stripCommas) = some s ∧
      e = { inv_date := (INVOICE_DATE_search text).map pyStrip
            currency := extract_currency_from_filename fn
            shipper := (SHIPPER_search text).map pyStrip
            pieces := (PACKAGES_search text).map (fun r => (digitsToNat r.data : Int))
            weight := w
            volume_m3 := v.map (fun x => x / 167)
            chargeable_kg :=
              match w, v.map (fun x => x / 167) with
              | some wq, some vq => if wq = 0 ∨ vq = 0 then none else some (max wq (vq * 167))
              | _, _ => none
            chargeable_cbm := v.map (fun x => x / 167)
            f_mode := (FREIGHT_search text).map (fun _ => "Air")
            f_rate := f
            subtotal := s } := by
  unfold extractFields at h
  split at h
  · next w v f s hw hv hf hs =>
      exact ⟨w, v, f, s, hw, hv, hf, hs, (Option.some.inj h).symm⟩
  · exact absurd h (by simp)

theorem lookup_timestamp (now fn : String) (e : Extracted) :
    List.lookup "Timestamp" (buildRow now fn e) = some (PyVal.vStr now) := rfl

theorem lookup_filename (now fn : String) (e : Extracted) :
    List.lookup "Filename" (buildRow now fn e) = some (PyVal.vStr (extract_invoice_id fn)) := rfl

theorem lookup_inv_date (now fn : String) (e : Extracted) :
    List.lookup "Invoice_Date" (buildRow now fn e) = some (optStr e.inv_date) := rfl

theorem lookup_currency (now fn : String) (e : Extracted) :
    List.lookup "Currency" (buildRow now fn e) = some (optStr e.currency) := rfl

theorem lookup_shipper (now fn : String) (e : Extracted) :
    List.lookup "Shipper" (buildRow now fn e) = some (optStr e.shipper) := rfl

theorem lookup_weight (now fn : String) (e : Extracted) :
    List.lookup "Weight_KG" (buildRow now fn e) = some (optFloat e.weight) := rfl

theorem lookup_volume (now fn : String) (e : Extracted) :
    List.lookup "Volume_M3" (buildRow now fn e) = some (optFloat e.volume_m3) := rfl

theorem lookup_chargeable_kg (now fn : String) (e : Extracted) :
    List.lookup "Chargeable_KG" (buildRow now fn e) = some (optFloat e.chargeable_kg) := rfl

theorem lookup_chargeable_cbm (now fn : String) (e : Extracted) :
    List.lookup "Chargeable_CBM" (buildRow now fn e) = some (optFloat e.chargeable_cbm) := rfl

theorem lookup_pieces (now fn : String) (e : Extracted) :
    List.lookup "Pieces" (buildRow now fn e) = some (optInt e.pieces) := rfl

theorem lookup_subtotal (now fn : String) (e : Extracted) :
    List.lookup "Subtotal" (buildRow now fn e) = some (optFloat e.subtotal) := rfl

theorem lookup_f_mode (now fn : String) (e : Extracted) :
    List.lookup "Freight_Mode" (buildRow now fn e) = some (optStr e.f_mode) := rfl

theorem lookup_f_rate (now fn : String) (e : Extracted) :
    List.lookup "Freight_Rate" (buildRow now fn e) = some (optFloat e.f_rate) := rfl

theorem parse_keys {now fn : String} {doc : Option (List (Option String))} {row : Row}
    (h : parse_invoice_pdf_bytes now doc fn = some row) :
    row.map Prod.fst = HEADERS := by
  cases doc with
  | none => simp [parse_invoice_pdf_bytes] at h
  | some pages =>
    obtain ⟨e, _, hrow⟩ := parse_some_inv h
    subst hrow; rfl

/-! ### C4 — fixed record schema -/

/-- C4: every record produced by the parser contains exactly the 13 fixed
keys `Timestamp, Filename, Invoice_Date, Currency, Shipper, Weight_KG,
Volume_M3, Chargeable_KG, Chargeable_CBM, Pieces, Subtotal, Freight_Mode,
Freight_Rate`, in source order, no more, no fewer, regardless of how many
fields were found in the text. -/
theorem c4_record_keys (now fn : String) (doc : Option (List (Option String))) (row : Row)
    (h : parse_invoice_pdf_bytes now doc fn = some row) :
    row.map Prod.fst = HEADERS :=
  parse_keys h

/-- C4 witness: the record of an empty document carries all 13 keys. -/
theorem c4_witness :
    (buildRow "t" "f" ⟨none, none, none, none, none, none, none, none, none, none, none⟩).map
      Prod.fst = HEADERS :=
  c4_record_keys "t" "f" (some [some ""])
    (buildRow "t" "f" ⟨none, none, none, none, none, none, none, none, none, none, none⟩)
    (by decide)

/-! ### C5 — Chargeable_CBM mirrors Volume_M3 -/

/-- C5: for every parsed document, `Chargeable_CBM` equals `Volume_M3`
exactly (the source assigns `chargeable_cbm = volume_m3`), so the two
fields agree whenever `Volume_M3` is present — independent of the gross
weight — and are absent together. -/
theorem c5_chargeable_cbm (now fn : String) (pages : List (Option String)) (row : Row)
    (h : parse_invoice_pdf_bytes now (some pages) fn = some row) :
    List.lookup "Chargeable_CBM" row = List.lookup "Volume_M3" row := by
  obtain ⟨e, he, hrow⟩ := parse_some_inv h
  obtain ⟨w, v, f, s, _, _, _, _, he'⟩ := extractFields_some_inv he
  subst hrow; subst he'; rfl

/-- C5 witness: a document with a volumetric weight only. -/
theorem c5_witness :
    List.lookup "Chargeable_CBM"
        ((parse_invoice_pdf_bytes "t" (some [some "Volume Weight: 334 KG"]) "f").get (by decide))
      = List.lookup "Volume_M3"
        ((parse_invoice_pdf_bytes "t" (some [some "Volume Weight: 334 KG"]) "f").get (by decide)) :=
  c5_chargeable_cbm "t" "f" [some "Volume Weight: 334 KG"] _
    (Option.some_get (by decide)).symm

/-! ### C10 — Freight_Mode/Freight_Rate paired, mode constant -/

/-- C10: `Freight_Mode` and `Freight_Rate` are present together or absent
together, and whenever present `Freight_Mode` is the constant `"Air"` —
it never takes any other value and is never present without a matched
freight amount. -/
theorem c10_freight_pair (now fn : String) (pages : List (Option String)) (row : Row)
    (h : parse_invoice_pdf_bytes now (some pages) fn = some row) :
    (List.lookup "Freight_Mode" row = some (PyVal.vStr "Air") ∧
      ∃ q, List.lookup "Freight_Rate" row = some (PyVal.vFloat q)) ∨
    (List.lookup "Freight_Mode" row = some PyVal.vNone ∧
      List.lookup "Freight_Rate" row = some PyVal.vNone) := by
  obtain ⟨e, he, hrow⟩ := parse_some_inv h
  obtain ⟨w, v, f, s, _, _, hf, _, he'⟩ := extractFields_some_inv he
  subst hrow; subst he'
  rw [lookup_f_mode, lookup_f_rate]
  cases hfs : FREIGHT_search (pdfText pages) with
  | none =>
    right
    rw [hfs] at hf
    simp only [coerceFloatOpt, Option.map_none'] at hf
    simp [optStr, optFloat, hfs, ← Option.some.inj hf]
  | some raw =>
    left
    rw [hfs] at hf
    simp only [Option.map_some', coerceFloatOpt] at hf
    cases hq : pyFloat (stripCommas raw) with
    | none => rw [hq] at hf; simp at hf
    | some q =>
      rw [hq] at hf
      simp only [Option.map_some'] at hf
      refine ⟨by simp [optStr, hfs], q, ?_⟩
      simp [optFloat, ← Option.some.inj hf]

/-- C10 witness: a document whose text carries an air-freight line. -/
theorem c10_witness :
    (List.lookup "Freight_Mode"
        ((parse_invoice_pdf_bytes "t" (some [some "AIR FREIGHT 3.45"]) "f").get (by decide))
        = some (PyVal.vStr "Air") ∧
      ∃ q, List.lookup "Freight_Rate"
        ((parse_invoice_pdf_bytes "t" (some [some "AIR FREIGHT 3.45"]) "f").get (by decide))
        = some (PyVal.vFloat q)) ∨
    (List.lookup "Freight_Mode"
        ((parse_invoice_pdf_bytes "t" (some [some "AIR FREIGHT 3.45"]) "f").get (by decide))
        = some PyVal.vNone ∧
      List.lookup "Freight_Rate"
        ((parse_invoice_pdf_bytes "t" (some [some "AIR FREIGHT 3.45"]) "f").get (by decide))
        = some PyVal.vNone) :=
  c10_freight_pair "t" "f" [some "AIR FREIGHT 3.45"] _
    (Option.some_get (by decide)).symm

/-! ### C2 — per-document failure containment -/

/-- C2: on any exception during the per-document pipeline — page-text
extraction (`doc = none`) or numeric coercion of a matched raw weight
value — no record is produced for that document (never a partial one:
records exist only as full 13-key rows), the failure is signaled to the
caller (the document's name joins the warned list), and the batch
continues: the produced rows are exactly the successful documents' rows
in order, and the warned names are exactly the failed documents' names
in order. -/
theorem c2_batch_containment (now : String)
    (uploads : List (Option (List (Option String)) × String)) :
    (extractBatch now uploads).1 =
      uploads.filterMap (fun u => parse_invoice_pdf_bytes now u.1 u.2) ∧
    (extractBatch now uploads).2 =
      (uploads.filter (fun u => (parse_invoice_pdf_bytes now u.1 u.2).isNone)).map Prod.snd ∧
    (∀ name, parse_invoice_pdf_bytes now none name = none) ∧
    (∀ pages name raw, WEIGHT_search (pdfText pages) = some raw → pyFloat raw = none →
      parse_invoice_pdf_bytes now (some pages) name = none) ∧
    (∀ pages name raw, VOL_search (pdfText pages) = some raw → pyFloat raw = none →
      parse_invoice_pdf_bytes now (some pages) name = none) ∧
    (∀ row ∈ (extractBatch now uploads).1, row.map Prod.fst = HEADERS) := by
  have hmain : (extractBatch now uploads).1 =
      uploads.filterMap (fun u => parse_invoice_pdf_bytes now u.1 u.2) ∧
      (extractBatch now uploads).2 =
      (uploads.filter (fun u => (parse_invoice_pdf_bytes now u.1 u.2).isNone)).map Prod.snd := by
    induction uploads with
    | nil => exact ⟨rfl, rfl⟩
    | cons u rest ih =>
      cases hp : parse_invoice_pdf_bytes now u.1 u.2 with
      | none => simpa [extractBatch, hp] using ih
      | some row => simpa [extractBatch, hp] using ih
  refine ⟨hmain.1, hmain.2, fun _ => rfl, ?_, ?_, ?_⟩
  · intro pages name raw hw hpf
    simp [parse_invoice_pdf_bytes, extractFields, coerceFloatOpt, hw, hpf]
  · intro pages name raw hv hpf
    have : coerceFloatOpt (VOL_search (pdfText pages)) = none := by
      simp [coerceFloatOpt, hv, hpf]
    simp only [parse_invoice_pdf_bytes, extractFields, this]
    cases coerceFloatOpt (WEIGHT_search (pdfText pages)) <;> rfl
  · intro row hrow
    rw [hmain.1] at hrow
    obtain ⟨u, _, hu⟩ := List.mem_filterMap.mp hrow
    exact parse_keys hu

/-- C2 witness: a batch of a page-decode failure, a coercion failure
(`float("1.2.3")` raises), and a success — the failures yield no rows,
their names are warned, and the batch continues. -/
theorem c2_witness :
    parse_invoice_pdf_bytes "t" none "bad.pdf" = none ∧
    parse_invoice_pdf_bytes "t" (some [some "Gross Weight: 1.2.3 KG"]) "coerce.pdf" = none ∧
    (extractBatch "t" [(none, "bad.pdf"),
        (some [some "Gross Weight: 1.2.3 KG"], "coerce.pdf"),
        (some [some ""], "ok.pdf")]).2 = ["bad.pdf", "coerce.pdf"] ∧
    (extractBatch "t" [(none, "bad.pdf"),
        (some [some "Gross Weight: 1.2.3 KG"], "coerce.pdf"),
        (some [some ""], "ok.pdf")]).1.length = 1 := by
  have h := c2_batch_containment "t" [(none, "bad.pdf"),
    (some [some "Gross Weight: 1.2.3 KG"], "coerce.pdf"), (some [some ""], "ok.pdf")]
  refine ⟨h.2.2.1 "bad.pdf",
    h.2.2.2.1 [some "Gross Weight: 1.2.3 KG"] "coerce.pdf" "1.2.3" (by decide) (by decide),
    ?_, ?_⟩
  · rw [h.2.1]; decide
  · rw [h.1]; decide

/-! ### C3 — missing pattern match means absent field, never an error -/

/-- C3: for every document text in which a field's pattern has no match,
that field in the produced record is the absent marker `vNone` (never
zero or the empty string); and a missing match never aborts the document
— the parser returns no record only when a matched raw value fails
numeric coercion. -/
theorem c3_absent_fields (now fn : String) (pages : List (Option String)) :
    (∀ row, parse_invoice_pdf_bytes now (some pages) fn = some row →
      (INVOICE_DATE_search (pdfText pages) = none →
        List.lookup "Invoice_Date" row = some PyVal.vNone) ∧
      (SHIPPER_search (pdfText pages) = none →
        List.lookup "Shipper" row = some PyVal.vNone) ∧
      (PACKAGES_search (pdfText pages) = none →
        List.lookup "Pieces" row = some PyVal.vNone) ∧
      (WEIGHT_search (pdfText pages) = none →
        List.lookup "Weight_KG" row = some PyVal.vNone) ∧
      (VOL_search (pdfText pages) = none →
        List.lookup "Volume_M3" row = some PyVal.vNone ∧
        List.lookup "Chargeable_KG" row = some PyVal.vNone ∧
        List.lookup "Chargeable_CBM" row = some PyVal.vNone) ∧
      (FREIGHT_search (pdfText pages) = none →
        List.lookup "Freight_Rate" row = some PyVal.vNone ∧
        List.lookup "Freight_Mode" row = some PyVal.vNone) ∧
      (SUBTOTAL_search (pdfText pages) = none →
        List.lookup "Subtotal" row = some PyVal.vNone)) ∧
    (parse_invoice_pdf_bytes now (some pages) fn = none →
      (∃ raw, WEIGHT_search (pdfText pages) = some raw ∧ pyFloat raw = none) ∨
      (∃ raw, VOL_search (pdfText pages) = some raw ∧ pyFloat raw = none) ∨
      (∃ raw, FREIGHT_search (pdfText pages) = some raw ∧
        pyFloat (stripCommas raw) = none) ∨
      (∃ raw, SUBTOTAL_search (pdfText pages) = some raw ∧
        pyFloat (stripCommas raw) = none)) := by
  constructor
  · intro row h
    obtain ⟨e, he, hrow⟩ := parse_some_inv h
    obtain ⟨w, v, f, s, hw, hv, hf, hs, he'⟩ := extractFields_some_inv he
    subst hrow; subst he'
    rw [lookup_inv_date, lookup_shipper, lookup_pieces, lookup_weight, lookup_volume,
      lookup_chargeable_kg, lookup_chargeable_cbm, lookup_f_rate, lookup_f_mode,
      lookup_subtotal]
    refine ⟨fun hi => by simp [hi, optStr], fun hi => by simp [hi, optStr],
      fun hi => by simp [hi, optInt], ?_, ?_, ?_, ?_⟩
    · intro hi
      rw [hi] at hw
      simp only [coerceFloatOpt] at hw
      simp [optFloat, ← Option.some.inj hw]
    · intro hi
      rw [hi] at hv
      simp only [coerceFloatOpt] at hv
      have hv' : v = none := (Option.some.inj hv).symm
      subst hv'
      cases w <;> simp [optFloat]
    · intro hi
      rw [hi] at hf
      simp only [coerceFloatOpt, Option.map_none'] at hf
      have hf' : f = none := (Option.some.inj hf).symm
      subst hf'
      simp [optFloat, optStr, hi]
    · intro hi
      rw [hi] at hs
      simp only [coerceFloatOpt, Option.map_none'] at hs
      simp [optFloat, ← Option.some.inj hs]
  · intro h
    cases hw : coerceFloatOpt (WEIGHT_search (pdfText pages)) with
    | none =>
      left
      cases hws : WEIGHT_search (pdfText pages) with
      | none => rw [hws] at hw; simp [coerceFloatOpt] at hw
      | some raw =>
        rw [hws] at hw
        simp only [coerceFloatOpt] at hw
        exact ⟨raw, rfl, by rwa [Option.map_eq_none'] at hw⟩
    | some w =>
      cases hv : coerceFloatOpt (VOL_search (pdfText pages)) with
      | none =>
        right; left
        cases hvs : VOL_search (pdfText pages) with
        | none => rw [hvs] at hv; simp [coerceFloatOpt] at hv
        | some raw =>
          rw [hvs] at hv
          simp only [coerceFloatOpt] at hv
          exact ⟨raw, rfl, by rwa [Option.map_eq_none'] at hv⟩
      | some v =>
        cases hf : coerceFloatOpt ((FREIGHT_search (pdfText pages)).map stripCommas) with
        | none =>
          right; right; left
          cases hfs : FREIGHT_search (pdfText pages) with
          | none => rw [hfs] at hf; simp [coerceFloatOpt] at hf
          | some raw =>
            rw [hfs] at hf
            simp only [Option.map_some', coerceFloatOpt] at hf
            exact ⟨raw, rfl, by rwa [Option.map_eq_none'] at hf⟩
        | some f =>
          cases hs : coerceFloatOpt ((SUBTOTAL_search (pdfText pages)).map stripCommas) with
          | none =>
            right; right; right
            cases hss : SUBTOTAL_search (pdfText pages) with
            | none => rw [hss] at hs; simp [coerceFloatOpt] at hs
            | some raw =>
              rw [hss] at hs
              simp only [Option.map_some', coerceFloatOpt] at hs
              exact ⟨raw, rfl, by rwa [Option.map_eq_none'] at hs⟩
          | some s =>
            exfalso
            have : parse_invoice_pdf_bytes now (some pages) fn ≠ none := by
              simp only [parse_invoice_pdf_bytes, extractFields, hw, hv, hf, hs]
              simp
            exact this h

/-- C3 witness: the empty document matches no pattern, aborts nothing,
and every text-derived field of its record is absent. -/
theorem c3_witness :
    List.lookup "Weight_KG"
        (buildRow "t" "f" ⟨none, none, none, none, none, none, none, none, none, none, none⟩)
      = some PyVal.vNone ∧
    List.lookup "Freight_Mode"
        (buildRow "t" "f" ⟨none, none, none, none, none, none, none, none, none, none, none⟩)
      = some PyVal.vNone ∧
    List.lookup "Volume_M3"
        (buildRow "t" "f" ⟨none, none, none, none, none, none, none, none, none, none, none⟩)
      = some PyVal.vNone := by
  have h := (c3_absent_fields "t" "f" [some ""]).1
    (buildRow "t" "f" ⟨none, none, none, none, none, none, none, none, none, none, none⟩)
    (by decide)
  exact ⟨h.2.2.2.1 (by decide), (h.2.2.2.2.2.1 (by decide)).2, (h.2.2.2.2.1 (by decide)).1⟩

/-! ### Evaluation of `pyFloat` on the literals used by witnesses -/

theorem pyFloat_0 : pyFloat "0" = some 0 := by
  simp only [pyFloat]
  rw [if_pos (by decide)]
  rw [show digitsToNat ("0".data.takeWhile (fun c => c ≠ '.')) = 0 from by decide,
    show digitsToNat (("0".data.dropWhile (fun c => c ≠ '.')).drop 1) = 0 from by decide,
    show (("0".data.dropWhile (fun c => c ≠ '.')).drop 1).length = 0 from by decide]
  norm_num

theorem pyFloat_167 : pyFloat "167" = some 167 := by
  simp only [pyFloat]
  rw [if_pos (by decide)]
  rw [show digitsToNat ("167".data.takeWhile (fun c => c ≠ '.')) = 167 from by decide,
    show digitsToNat (("167".data.dropWhile (fun c => c ≠ '.')).drop 1) = 0 from by decide,
    show (("167".data.dropWhile (fun c => c ≠ '.')).drop 1).length = 0 from by decide]
  norm_num

theorem pyFloat_10020 : pyFloat "10020" = some 10020 := by
  simp only [pyFloat]
  rw [if_pos (by decide)]
  rw [show digitsToNat ("10020".data.takeWhile (fun c => c ≠ '.')) = 10020 from by decide,
    show digitsToNat (("10020".data.dropWhile (fun c => c ≠ '.')).drop 1) = 0 from by decide,
    show (("10020".data.dropWhile (fun c => c ≠ '.')).drop 1).length = 0 from by decide]
  norm_num

theorem pyFloat_120_5 : pyFloat "120.5" = some (241 / 2) := by
  simp only [pyFloat]
  rw [if_pos (by decide)]
  rw [show digitsToNat ("120.5".data.takeWhile (fun c => c ≠ '.')) = 120 from by decide,
    show digitsToNat (("120.5".data.dropWhile (fun c => c ≠ '.')).drop 1) = 5 from by decide,
    show (("120.5".data.dropWhile (fun c => c ≠ '.')).drop 1).length = 1 from by decide]
  norm_num

/-! ### C6 — volume derivation and exact round-trip -/

/-- C6: for every extracted volumetric weight `W`, the derived volume is
`W / 167` (the `Volume_M3` and `Chargeable_CBM` fields), and
recomputing `volume * 167` — as the chargeable-weight formula does —
recovers `W` exactly in this rational model (hence within any
floating-point tolerance; the inverse uses the same shared constant
167). -/
theorem c6_volume_roundtrip (now fn : String) (pages : List (Option String)) (row : Row)
    (raw : String) (W : ℚ)
    (h : parse_invoice_pdf_bytes now (some pages) fn = some row)
    (hr : VOL_search (pdfText pages) = some raw)
    (hq : pyFloat raw = some W) :
    List.lookup "Volume_M3" row = some (PyVal.vFloat (W / 167)) ∧
    W / 167 * 167 = W ∧
    List.lookup "Chargeable_CBM" row = some (PyVal.vFloat (W / 167)) := by
  obtain ⟨e, he, hrow⟩ := parse_some_inv h
  obtain ⟨w, v, f, s, _, hv, _, _, he'⟩ := extractFields_some_inv he
  subst hrow; subst he'
  rw [hr] at hv
  simp only [coerceFloatOpt, hq, Option.map_some'] at hv
  have hv' : v = some W := (Option.some.inj hv).symm
  subst hv'
  rw [lookup_volume, lookup_chargeable_cbm]
  exact ⟨by simp [optFloat], div_mul_cancel₀ W (by norm_num), by simp [optFloat]⟩

/-- C6 witness: `Volume Weight: 10020 KG` gives volume `10020/167 = 60`
and the round-trip is exact. -/
theorem c6_witness :
    List.lookup "Volume_M3"
        ((parse_invoice_pdf_bytes "t" (some [some "Volume Weight: 10020 KG"]) "f").get
          (by decide))
      = some (PyVal.vFloat ((10020 : ℚ) / 167)) ∧
    (10020 : ℚ) / 167 * 167 = 10020 ∧
    List.lookup "Chargeable_CBM"
        ((parse_invoice_pdf_bytes "t" (some [some "Volume Weight: 10020 KG"]) "f").get
          (by decide))
      = some (PyVal.vFloat ((10020 : ℚ) / 167)) :=
  c6_volume_roundtrip "t" "f" [some "Volume Weight: 10020 KG"] _ "10020" 10020
    (Option.some_get (by decide)).symm (by decide) pyFloat_10020

/-! ### C1 — chargeable weight and Python truthiness -/

/-- C1 counterexample: in
`"Gross Weight: 0 KG\nVolume Weight: 167 KG"` both the gross weight
(value `0.0`) and the volumetric weight are extracted, yet
`Chargeable_KG` is absent — `if weight and volume_m3:` treats the
extracted `0.0` as missing — contradicting "present if and only if both
… were extracted … equals max(gross_weight_kg, volume_m3 * 167)". -/
theorem c1_counterexample :
    parse_invoice_pdf_bytes "t" (some [some "Gross Weight: 0 KG\nVolume Weight: 167 KG"]) "f"
      = some (buildRow "t" "f"
          ⟨none, none, none, none, some 0, some ((167 : ℚ) / 167), none,
            some ((167 : ℚ) / 167), none, none, none⟩) ∧
    List.lookup "Weight_KG" (buildRow "t" "f"
        ⟨none, none, none, none, some 0, some ((167 : ℚ) / 167), none,
          some ((167 : ℚ) / 167), none, none, none⟩)
      = some (PyVal.vFloat 0) ∧
    List.lookup "Volume_M3" (buildRow "t" "f"
        ⟨none, none, none, none, some 0, some ((167 : ℚ) / 167), none,
          some ((167 : ℚ) / 167), none, none, none⟩)
      = some (PyVal.vFloat ((167 : ℚ) / 167)) ∧
    (167 : ℚ) / 167 ≠ 0 ∧
    List.lookup "Chargeable_KG" (buildRow "t" "f"
        ⟨none, none, none, none, some 0, some ((167 : ℚ) / 167), none,
          some ((167 : ℚ) / 167), none, none, none⟩)
      = some PyVal.vNone := by
  refine ⟨?_, rfl, rfl, by norm_num, rfl⟩
  have hW : WEIGHT_search (pdfText [some "Gross Weight: 0 KG\nVolume Weight: 167 KG"])
      = some "0" := by decide
  have hV : VOL_search (pdfText [some "Gross Weight: 0 KG\nVolume Weight: 167 KG"])
      = some "167" := by decide
  have hF : FREIGHT_search (pdfText [some "Gross Weight: 0 KG\nVolume Weight: 167 KG"])
      = none := by decide
  have hS : SUBTOTAL_search (pdfText [some "Gross Weight: 0 KG\nVolume Weight: 167 KG"])
      = none := by decide
  have hI : INVOICE_DATE_search (pdfText [some "Gross Weight: 0 KG\nVolume Weight: 167 KG"])
      = none := by decide
  have hSh : SHIPPER_search (pdfText [some "Gross Weight: 0 KG\nVolume Weight: 167 KG"])
      = none := by decide
  have hP : PACKAGES_search (pdfText [some "Gross Weight: 0 KG\nVolume Weight: 167 KG"])
      = none := by decide
  have hC : extract_currency_from_filename "f" = none := by decide
  simp only [parse_invoice_pdf_bytes, extractFields, hW, hV, hF, hS, hI, hSh, hP, hC,
    coerceFloatOpt, pyFloat_0, pyFloat_167, Option.map_some', Option.map_none']
  simp only [true_or, if_true]

/-- C1 (amended): `Chargeable_KG` is present iff both the gross weight
and the volumetric weight were extracted *with nonzero values* (Python
truthiness: an extracted `0.0` counts as missing), and when present it
equals `max(gross_weight_kg, volume_m3 * 167)`. -/
theorem c1_chargeable_truthiness (now fn : String) (pages : List (Option String)) (row : Row)
    (h : parse_invoice_pdf_bytes now (some pages) fn = some row) :
    ((∃ q, List.lookup "Chargeable_KG" row = some (PyVal.vFloat q)) ↔
      ((∃ w, List.lookup "Weight_KG" row = some (PyVal.vFloat w) ∧ w ≠ 0) ∧
       (∃ v, List.lookup "Volume_M3" row = some (PyVal.vFloat v) ∧ v ≠ 0))) ∧
    (∀ w v, List.lookup "Weight_KG" row = some (PyVal.vFloat w) →
      List.lookup "Volume_M3" row = some (PyVal.vFloat v) → w ≠ 0 → v ≠ 0 →
      List.lookup "Chargeable_KG" row = some (PyVal.vFloat (max w (v * 167)))) := by
  obtain ⟨e, he, hrow⟩ := parse_some_inv h
  obtain ⟨w, v, f, s, _, _, _, _, he'⟩ := extractFields_some_inv he
  subst hrow; subst he'
  rw [lookup_weight, lookup_volume, lookup_chargeable_kg]
  cases w with
  | none => cases v <;> simp [optFloat]
  | some wq =>
    cases v with
    | none => simp [optFloat]
    | some vq =>
      by_cases hw0 : wq = 0
      · subst hw0
        simp [optFloat]
      · by_cases hv0 : vq / 167 = 0
        · simp [optFloat, hw0, hv0]
        · simp only [optFloat, Option.map_some']
          rw [if_neg (by tauto)]
          constructor
          · constructor
            · intro _
              exact ⟨⟨wq, rfl, hw0⟩, ⟨vq / 167, rfl, hv0⟩⟩
            · intro _
              exact ⟨max wq (vq / 167 * 167), rfl⟩
          · intro w' v' hw' hv' _ _
            have hw'' : w' = wq := by
              simpa using (PyVal.vFloat.inj (Option.some.inj hw')).symm
            have hv'' : v' = vq / 167 := by
              simpa using (PyVal.vFloat.inj (Option.some.inj hv')).symm
            rw [hw'', hv'']

/-- C1 witness for the amended claim: gross `120.5` kg and volumetric
`10020` kg give chargeable weight `max(120.5, (10020/167) * 167)`. -/
theorem c1_witness :
    List.lookup "Chargeable_KG" (buildRow "t" "f"
        ⟨none, none, none, none, some (241 / 2), some ((10020 : ℚ) / 167),
          some (max (241 / 2) ((10020 : ℚ) / 167 * 167)), some ((10020 : ℚ) / 167),
          none, none, none⟩)
      = some (PyVal.vFloat (max (241 / 2 : ℚ) ((10020 : ℚ) / 167 * 167))) := by
  have hW : WEIGHT_search (pdfText [some "Gross Weight: 120.5 KG\nVolume Weight: 10020 KG"])
      = some "120.5" := by decide
  have hV : VOL_search (pdfText [some "Gross Weight: 120.5 KG\nVolume Weight: 10020 KG"])
      = some "10020" := by decide
  have hF : FREIGHT_search (pdfText [some "Gross Weight: 120.5 KG\nVolume Weight: 10020 KG"])
      = none := by decide
  have hS : SUBTOTAL_search (pdfText [some "Gross Weight: 120.5 KG\nVolume Weight: 10020 KG"])
      = none := by decide
  have hI : INVOICE_DATE_search (pdfText [some "Gross Weight: 120.5 KG\nVolume Weight: 10020 KG"])
      = none := by decide
  have hSh : SHIPPER_search (pdfText [some "Gross Weight: 120.5 KG\nVolume Weight: 10020 KG"])
      = none := by decide
  have hP : PACKAGES_search (pdfText [some "Gross Weight: 120.5 KG\nVolume Weight: 10020 KG"])
      = none := by decide
  have hC : extract_currency_from_filename "f" = none := by decide
  have hparse : parse_invoice_pdf_bytes "t"
      (some [some "Gross Weight: 120.5 KG\nVolume Weight: 10020 KG"]) "f"
      = some (buildRow "t" "f"
          ⟨none, none, none, none, some (241 / 2), some ((10020 : ℚ) / 167),
            some (max (241 / 2) ((10020 : ℚ) / 167 * 167)), some ((10020 : ℚ) / 167),
            none, none, none⟩) := by
    simp only [parse_invoice_pdf_bytes, extractFields, hW, hV, hF, hS, hI, hSh, hP, hC,
      coerceFloatOpt, pyFloat_120_5, pyFloat_10020, Option.map_some', Option.map_none']
    rw [if_neg (by push_neg; constructor <;> norm_num)]
  exact (c1_chargeable_truthiness "t" "f"
      [some "Gross Weight: 120.5 KG\nVolume Weight: 10020 KG"] _ hparse).2
    (241 / 2) ((10020 : ℚ) / 167) rfl rfl (by norm_num) (by norm_num)

/-! ### C9 — currency from filename -/

/-- C9 counterexample: the filename `"a CADENCE.pdf"` has no
space-delimited `CAD` token, yet the deployed rule — the substring test
`" CAD" in filename.upper()`, which requires a space before the code but
nothing after it — yields `CAD`; the claim's "exactly when the filename
contains that code as a space-delimited token" is false on the code. -/
theorem c9_counterexample :
    extract_currency_from_filename "a CADENCE.pdf" = some "CAD" ∧
    (splitSp (pyUpper "a CADENCE.pdf").data).contains ("CAD".data) = false := by decide

/-- C9 (amended): the `Currency` field is derived from the filename
only — never from document text — and equals the first of `CAD`, `USD`,
`EUR` (in that order) whose code, immediately preceded by a space,
occurs as a substring of the upper-cased filename; otherwise it is
absent. -/
theorem c9_currency_from_filename (now fn : String) (pages : List (Option String)) (row : Row)
    (h : parse_invoice_pdf_bytes now (some pages) fn = some row) :
    List.lookup "Currency" row = some (
      if hasSub (" CAD".data) (pyUpper fn).data then PyVal.vStr "CAD"
      else if hasSub (" USD".data) (pyUpper fn).data then PyVal.vStr "USD"
      else if hasSub (" EUR".data) (pyUpper fn).data then PyVal.vStr "EUR"
      else PyVal.vNone) := by
  obtain ⟨e, he, hrow⟩ := parse_some_inv h
  obtain ⟨w, v, f, s, _, _, _, _, he'⟩ := extractFields_some_inv he
  subst hrow; subst he'
  rw [lookup_currency]
  simp only [extract_currency_from_filename]
  cases h1 : hasSub (" CAD".data) (pyUpper fn).data <;>
    cases h2 : hasSub (" USD".data) (pyUpper fn).data <;>
      cases h3 : hasSub (" EUR".data) (pyUpper fn).data <;>
        simp [h1, h2, h3, optStr]

/-- C9 witness: a filename carrying a space-preceded `CAD`, parsed with
empty document text, yields currency `CAD` — independent of the text. -/
theorem c9_witness :
    List.lookup "Currency"
        ((parse_invoice_pdf_bytes "t" (some [some ""]) "inv 26693A CAD.pdf").get (by decide))
      = some (PyVal.vStr "CAD") := by
  have h := c9_currency_from_filename "t" "inv 26693A CAD.pdf" [some ""] _
    (Option.some_get (by decide)).symm
  rw [h]
  decide

/-! ### Lemmas about the matchers, for C7 and C8 -/

theorem matchLit_append (p r : List Char) : matchLit p (p ++ r) = some r := by
  induction p with
  | nil => rfl
  | cons c cs ih => simp [matchLit, ciEq, ih]

theorem searchLeftmost_of_hit (f : List Char → Option String) (cs : List Char) (d : String)
    (h : f cs = some d) : searchLeftmost f cs = some d := by
  cases cs <;> simp [searchLeftmost, h]

theorem dateClassChar_not_digit {c : Char} (h : dateClassChar c = true) :
    isDigitChar c = false := by
  simp only [dateClassChar, Bool.or_eq_true, beq_iff_eq] at h
  simp only [isSpaceChar, isUpperAZ, isLowerAZ, decide_eq_true_eq] at h
  simp only [isDigitChar, decide_eq_false_iff_not]
  rcases h with ((((h | h) | h) | h) | h)
  · omega
  · subst h; decide
  · subst h; decide
  · omega
  · omega

theorem digit_not_space {c : Char} (h : isDigitChar c = true) : isSpaceChar c = false := by
  simp only [isDigitChar, decide_eq_true_eq] at h
  simp only [isSpaceChar, decide_eq_false_iff_not]
  omega

theorem dateAt_cons_none {c : Char} (l : List Char) (h : isDigitChar c = false) :
    dateAt (c :: l) = none := by
  rcases l with _ | ⟨a1, _ | ⟨a2, _ | ⟨a3, _ | ⟨a4, _ | ⟨a5, _ | ⟨a6, _ | ⟨a7, _ | ⟨a8, _ |
    ⟨a9, r⟩⟩⟩⟩⟩⟩⟩⟩⟩ <;> simp [dateAt, h]

theorem invoiceDateLazy_app : ∀ (sep : List Char), sep.all dateClassChar = true →
    ∀ (tail : List Char) (d : String), dateAt tail = some d →
    invoiceDateLazy (sep ++ tail) = some d
  | [], _, tail, d, h => by
    cases tail with
    | nil => simp [dateAt] at h
    | cons c r => simp [invoiceDateLazy, h]
  | c :: cs, hsep, tail, d, h => by
    have hc : dateClassChar c = true ∧ cs.all dateClassChar = true := by
      simpa [List.all_cons] using hsep
    have hd0 : dateAt (c :: (cs ++ tail)) = none :=
      dateAt_cons_none _ (dateClassChar_not_digit hc.1)
    show invoiceDateLazy (c :: (cs ++ tail)) = some d
    simp only [invoiceDateLazy]
    rw [hd0]
    simp only [hc.1, if_true]
    exact invoiceDateLazy_app cs hc.2 tail d h

theorem takeWhile_append_all {p : Char → Bool} : ∀ (l1 l2 : List Char),
    l1.all p = true → (∀ c l', l2 = c :: l' → p c = false) →
    (l1 ++ l2).takeWhile p = l1 ∧ (l1 ++ l2).dropWhile p = l2
  | [], l2, _, h2 => by
    cases l2 with
    | nil => simp
    | cons c l' => simp [List.takeWhile, List.dropWhile, h2 c l' rfl]
  | a :: l1, l2, h1, h2 => by
    have ha : p a = true ∧ l1.all p = true := by simpa [List.all_cons] using h1
    have ih := takeWhile_append_all l1 l2 ha.2 h2
    simp [List.takeWhile, List.dropWhile, ha.1, ih.1, ih.2]

theorem all_takeWhile {p q : Char → Bool} : ∀ (l : List Char), l.all p = true →
    (l.takeWhile q).all p = true
  | [], _ => rfl
  | a :: l, h => by
    have ha : p a = true ∧ l.all p = true := by simpa [List.all_cons] using h
    cases hq : q a with
    | false => simp [List.takeWhile, hq]
    | true => simp [List.takeWhile, hq, ha.1, all_takeWhile l ha.2]

theorem decimal2EoL_cons_none {c : Char} (l : List Char)
    (h : (isDigitChar c || c == ',') = false) : decimal2EoL (c :: l) = none := by
  simp [decimal2EoL, List.takeWhile, h]

theorem decimal2EoL_app (ds : List Char) (a b : Char) (tail : List Char)
    (hds : ds ≠ []) (hall : ds.all (fun c => isDigitChar c || c == ',') = true)
    (ha : isDigitChar a = true) (hb : isDigitChar b = true)
    (htail : tail.all isSpaceChar = true) :
    decimal2EoL (ds ++ '.' :: a :: b :: tail)
      = some (String.mk (ds ++ '.' :: a :: b :: [])) := by
  have hsplit := takeWhile_append_all ds ('.' :: a :: b :: tail) hall
    (by intro c l' hc; injection hc with hc1 _; subst hc1; decide)
  have hne : ds.isEmpty = false := by
    cases ds with
    | nil => exact absurd rfl hds
    | cons x xs => rfl
  simp only [decimal2EoL, hsplit.1, hsplit.2, hne, Bool.false_eq_true, if_false]
  simp [ha, hb, all_takeWhile tail htail]

theorem freightAfterLabel_app : ∀ (mid rest : List Char) (cap : String),
    mid.all (fun c => !(isDigitChar c || c == ',') && !(c == '\n')) = true →
    decimal2EoL rest = some cap →
    freightAfterLabel (mid ++ rest) = some cap
  | [], rest, cap, _, hbase => by
    cases rest with
    | nil => simp [decimal2EoL] at hbase
    | cons r rs => simp [freightAfterLabel, hbase]
  | c :: cs, rest, cap, hmid, hbase => by
    have hc : (!(isDigitChar c || c == ',') && !(c == '\n')) = true ∧
        cs.all (fun x => !(isDigitChar x || x == ',') && !(x == '\n')) = true := by
      simpa [List.all_cons] using hmid
    have hc1 : (isDigitChar c || c == ',') = false ∧ (c == '\n') = false := by
      have := hc.1
      simp only [Bool.and_eq_true, Bool.not_eq_true'] at this
      exact this
    simp only [List.cons_append, freightAfterLabel, decimal2EoL_cons_none _ hc1.1, hc1.2,
      Bool.false_eq_true, if_false]
    exact freightAfterLabel_app cs rest cap hc.2 hbase

/-! ### C7 — invoice date after the label -/

/-- C7 counterexample: in `"INVOICE DATE, 2024-01-02"` the label is
followed — separated only by a comma and a space — by a well-formed
`YYYY-MM-DD` date, yet `Invoice_Date` is absent: the pattern's
intervening-character class `[\s:\-A-Z\n]` does not include the comma
(nor most punctuation), so "arbitrary intervening words, punctuation,
and newlines" is false on the code. -/
theorem c7_counterexample :
    hasSub ("INVOICE DATE".data) ("INVOICE DATE, 2024-01-02".data) = true ∧
    hasSub ("2024-01-02".data) ("INVOICE DATE, 2024-01-02".data) = true ∧
    List.lookup "Invoice_Date"
        ((parse_invoice_pdf_bytes "t" (some [some "INVOICE DATE, 2024-01-02"]) "f").get
          (by decide))
      = some PyVal.vNone := by decide

/-- C7 (amended): for every document text in which the invoice-date
label is followed — separated only by characters of the class
`[\s:\-A-Z\n]` under `re.I`, i.e. whitespace (newlines included),
colons, hyphens, and letters — by a date of the form `YYYY-MM-DD`, the
`Invoice_Date` field is that date string (the first such date reachable
through the class, by the non-greedy search); characters outside that
class between label and date (digits, commas, periods, …) prevent
extraction. -/
theorem c7_invoice_date_class (now fn : String) (sep rest : List Char)
    (y1 y2 y3 y4 m1 m2 d1 d2 : Char) (row : Row)
    (hsep : sep.all dateClassChar = true)
    (hy1 : isDigitChar y1 = true) (hy2 : isDigitChar y2 = true)
    (hy3 : isDigitChar y3 = true) (hy4 : isDigitChar y4 = true)
    (hm1 : isDigitChar m1 = true) (hm2 : isDigitChar m2 = true)
    (hd1 : isDigitChar d1 = true) (hd2 : isDigitChar d2 = true)
    (h : parse_invoice_pdf_bytes now
        (some [some (String.mk ("INVOICE DATE".data ++
          (sep ++ (y1 :: y2 :: y3 :: y4 :: '-' :: m1 :: m2 :: '-' :: d1 :: d2 :: rest))))]) fn
      = some row) :
    List.lookup "Invoice_Date" row
      = some (PyVal.vStr (String.mk [y1, y2, y3, y4, '-', m1, m2, '-', d1, d2])) := by
  have hdate : dateAt (y1 :: y2 :: y3 :: y4 :: '-' :: m1 :: m2 :: '-' :: d1 :: d2 :: rest)
      = some (String.mk [y1, y2, y3, y4, '-', m1, m2, '-', d1, d2]) := by
    simp [dateAt, hy1, hy2, hy3, hy4, hm1, hm2, hd1, hd2]
  have hat : invoiceDateAt ("INVOICE DATE".data ++
      (sep ++ (y1 :: y2 :: y3 :: y4 :: '-' :: m1 :: m2 :: '-' :: d1 :: d2 :: rest)))
      = some (String.mk [y1, y2, y3, y4, '-', m1, m2, '-', d1, d2]) := by
    simp only [invoiceDateAt, matchLit_append]
    exact invoiceDateLazy_app sep hsep _ _ hdate
  have hsearch : INVOICE_DATE_search (String.mk ("INVOICE DATE".data ++
      (sep ++ (y1 :: y2 :: y3 :: y4 :: '-' :: m1 :: m2 :: '-' :: d1 :: d2 :: rest))))
      = some (String.mk [y1, y2, y3, y4, '-', m1, m2, '-', d1, d2]) := by
    simp only [INVOICE_DATE_search]
    exact searchLeftmost_of_hit _ _ _ hat
  obtain ⟨e, he, hrow⟩ := parse_some_inv h
  obtain ⟨w, v, f, s, _, _, _, _, he'⟩ := extractFields_some_inv he
  subst hrow; subst he'
  rw [lookup_inv_date]
  rw [show pdfText [some (String.mk ("INVOICE DATE".data ++
      (sep ++ (y1 :: y2 :: y3 :: y4 :: '-' :: m1 :: m2 :: '-' :: d1 :: d2 :: rest))))]
      = String.mk ("INVOICE DATE".data ++
        (sep ++ (y1 :: y2 :: y3 :: y4 :: '-' :: m1 :: m2 :: '-' :: d1 :: d2 :: rest)))
    from rfl]
  rw [hsearch]
  have hstrip : pyStrip (String.mk [y1, y2, y3, y4, '-', m1, m2, '-', d1, d2])
      = String.mk [y1, y2, y3, y4, '-', m1, m2, '-', d1, d2] := by
    simp [pyStrip, List.dropWhile, digit_not_space hy1, digit_not_space hd2]
  simp [optStr, hstrip]

/-- C7 witness for the amended claim: label, then `": "`, then the date. -/
theorem c7_witness :
    List.lookup "Invoice_Date"
        ((parse_invoice_pdf_bytes "t"
            (some [some (String.mk ("INVOICE DATE".data ++
              ([':', ' '] ++
                ('2' :: '0' :: '2' :: '4' :: '-' :: '0' :: '1' :: '-' :: '0' :: '2' :: []))))])
            "f").get (by decide))
      = some (PyVal.vStr (String.mk ['2', '0', '2', '4', '-', '0', '1', '-', '0', '2'])) :=
  c7_invoice_date_class "t" "f" [':', ' '] [] '2' '0' '2' '4' '0' '1' '0' '2' _
    (by decide) (by decide) (by decide) (by decide) (by decide)
    (by decide) (by decide) (by decide) (by decide)
    (Option.some_get (by decide)).symm

/-! ### C8 — freight rate from the AIR FREIGHT line -/

/-- C8 counterexample: on the line `"AIR FREIGHT 100.00 CAD"` the last
two-fraction-digit decimal is `100.00`, yet `Freight_Rate` (and
`Freight_Mode`) are absent: the pattern's `\s*$` requires the decimal to
terminate the line (only whitespace may follow), and `CAD` follows it
here; "equals the last decimal … on that line" is false on the code. -/
theorem c8_counterexample :
    hasSub ("AIR FREIGHT".data) ("AIR FREIGHT 100.00 CAD".data) = true ∧
    hasSub ("100.00".data) ("AIR FREIGHT 100.00 CAD".data) = true ∧
    List.lookup "Freight_Rate"
        ((parse_invoice_pdf_bytes "t" (some [some "AIR FREIGHT 100.00 CAD"]) "f").get
          (by decide))
      = some PyVal.vNone ∧
    List.lookup "Freight_Mode"
        ((parse_invoice_pdf_bytes "t" (some [some "AIR FREIGHT 100.00 CAD"]) "f").get
          (by decide))
      = some PyVal.vNone := by decide

/-- C8 (amended): for every document text whose `AIR FREIGHT` line ends
(up to trailing whitespace) with a decimal-with-two-fraction-digits
placed after the label, `Freight_Rate` is that decimal with
thousands-separator commas stripped before parsing (and `Freight_Mode`
is `"Air"`); a decimal not terminating the line does not match, and with
no such line-terminal decimal the fields are absent. -/
theorem c8_freight_line_end (now fn : String) (mid ds : List Char) (a b : Char)
    (tail : List Char) (row : Row)
    (hmid : mid.all (fun c => !(isDigitChar c || c == ',') && !(c == '\n')) = true)
    (hds : ds ≠ []) (hall : ds.all (fun c => isDigitChar c || c == ',') = true)
    (ha : isDigitChar a = true) (hb : isDigitChar b = true)
    (htail : tail.all isSpaceChar = true)
    (h : parse_invoice_pdf_bytes now
        (some [some (String.mk ("AIR FREIGHT".data ++ (mid ++ (ds ++ '.' :: a :: b :: tail))))])
        fn = some row) :
    List.lookup "Freight_Mode" row = some (PyVal.vStr "Air") ∧
    ∃ q, pyFloat (stripCommas (String.mk (ds ++ '.' :: a :: b :: []))) = some q ∧
      List.lookup "Freight_Rate" row = some (PyVal.vFloat q) := by
  have hdec := decimal2EoL_app ds a b tail hds hall ha hb htail
  have hat : freightAt ("AIR FREIGHT".data ++ (mid ++ (ds ++ '.' :: a :: b :: tail)))
      = some (String.mk (ds ++ '.' :: a :: b :: [])) := by
    simp only [freightAt, matchLit_append]
    exact freightAfterLabel_app mid (ds ++ '.' :: a :: b :: tail) _ hmid hdec
  have hsearch : FREIGHT_search
      (String.mk ("AIR FREIGHT".data ++ (mid ++ (ds ++ '.' :: a :: b :: tail))))
      = some (String.mk (ds ++ '.' :: a :: b :: [])) := by
    simp only [FREIGHT_search]
    exact searchLeftmost_of_hit _ _ _ hat
  obtain ⟨e, he, hrow⟩ := parse_some_inv h
  obtain ⟨w, v, f, s, _, _, hf, _, he'⟩ := extractFields_some_inv he
  subst hrow; subst he'
  rw [lookup_f_mode, lookup_f_rate]
  rw [show pdfText [some (String.mk ("AIR FREIGHT".data ++
      (mid ++ (ds ++ '.' :: a :: b :: tail))))]
      = String.mk ("AIR FREIGHT".data ++ (mid ++ (ds ++ '.' :: a :: b :: tail))) from rfl] at hf ⊢
  rw [hsearch] at hf ⊢
  simp only [Option.map_some', coerceFloatOpt] at hf
  cases hq : pyFloat (stripCommas (String.mk (ds ++ '.' :: a :: b :: []))) with
  | none => rw [hq] at hf; simp at hf
  | some q =>
    rw [hq] at hf
    simp only [Option.map_some'] at hf
    have hf' : f = some q := (Option.some.inj hf).symm
    subst hf'
    exact ⟨by simp [optStr], q, rfl, by simp [optFloat]⟩

/-- C8 witness for the amended claim: `"AIR FREIGHT 1,234.56"`. -/
theorem c8_witness :
    List.lookup "Freight_Mode"
        ((parse_invoice_pdf_bytes "t"
            (some [some (String.mk ("AIR FREIGHT".data ++
              ([' '] ++ (['1', ',', '2', '3', '4'] ++ '.' :: '5' :: '6' :: []))))]) "f").get
          (by decide))
      = some (PyVal.vStr "Air") ∧
    ∃ q, pyFloat (stripCommas (String.mk (['1', ',', '2', '3', '4'] ++ '.' :: '5' :: '6' :: [])))
        = some q ∧
      List.lookup "Freight_Rate"
        ((parse_invoice_pdf_bytes "t"
            (some [some (String.mk ("AIR FREIGHT".data ++
              ([' '] ++ (['1', ',', '2', '3', '4'] ++ '.' :: '5' :: '6' :: []))))]) "f").get
          (by decide))
        = some (PyVal.vFloat q) :=
  c8_freight_line_end "t" "f" [' '] ['1', ',', '2', '3', '4'] '5' '6' [] _
    (by decide) (by decide) (by decide) (by decide) (by decide) (by decide)
    (Option.some_get (by decide)).symm
